import Mathlib

/-!
Shallow embedding of the PDF-Analyzer backend core
(src/backend/document_processor.py, src/backend/document_analyzer.py,
src/backend/config.py, src/backend/exceptions.py).

External capabilities (pymupdf parsing, page text extraction, page
rendering, the DocTR OCR model, and the dspy inference backend) are
modelled as oracles carried in an environment record; each oracle may
fail, mirroring a raised Python exception, via `Except String`.
-/

namespace PDFAnalyzer

/-- Equality of Except values is decidable when it is on both sides;
needed to evaluate processor outcomes on concrete inputs. -/
instance {ε α : Type} [DecidableEq ε] [DecidableEq α] : DecidableEq (Except ε α) := fun a b =>
  match a, b with
  | Except.ok x, Except.ok y =>
    if h : x = y then isTrue (congrArg Except.ok h)
    else isFalse (fun hh => h (Except.ok.inj hh))
  | Except.error x, Except.error y =>
    if h : x = y then isTrue (congrArg Except.error h)
    else isFalse (fun hh => h (Except.error.inj hh))
  | Except.ok _, Except.error _ => isFalse (fun hh => Except.noConfusion hh)
  | Except.error _, Except.ok _ => isFalse (fun hh => Except.noConfusion hh)

/-- Python str.strip(): drop leading and trailing whitespace. -/
def pyStrip (s : String) : String :=
  String.mk (((s.data.dropWhile Char.isWhitespace).reverse.dropWhile Char.isWhitespace).reverse)

/-- A rendered raster page image (PIL.Image in the source); its pixel
content is abstracted to an identifier, only identity matters to the
spec claims. -/
structure PdfImage where
  data : Nat
deriving DecidableEq

/-- One parsed PDF page as pymupdf exposes it: `page.get_text()` and
`page.get_pixmap(...)` may each succeed or raise. -/
structure Page where
  getTextResult : Except String String
  renderResult : Except String PdfImage

/-- A successfully opened pymupdf document: its ordered page list. -/
structure PDFDoc where
  pages : List Page

/-- Configuration values from config.py's AppConfig that the processor
reads (MAX_FILE_SIZE is bytes, MAX_FILE_PAGE is the page ceiling). -/
structure AppConfig where
  MAX_FILE_SIZE : Nat
  MAX_FILE_PAGE : Nat
deriving DecidableEq

/-- AppConfig.MIN_CONFIDENCE = 0.6, the validation threshold
(hard-coded in config.py). -/
def MIN_CONFIDENCE : ℚ := 6 / 10

/-- The exceptions that can escape DocumentProcessor.process:
the two categorized classes from exceptions.py, the Python builtin
FileNotFoundError raised by _validate_file, and an arbitrary exception
propagating out of an unguarded external call (the dspy readability
classifier in _is_valid_content has no try/except). -/
inductive ProcError where
  | invalidDocument (msg : String)
  | contentExtraction (msg : String)
  | fileNotFound (msg : String)
  | uncaughtException (msg : String)
deriving DecidableEq

/-- Observable external side effects of one `process` call, used to
state which external work was or was not performed. -/
inductive ExtractEvent where
  | extractTextEv (pageIdx : Nat)
  | renderImageEv (pageIdx : Nat)
  | classifierCall
  | ocrCall
deriving DecidableEq

/-- The environment of one `process` call: the file system facts about
the source path, the pymupdf parse outcome (`none` models a raised
pymupdf.FileDataError), the dspy readability-classifier oracle
(ValidContent; failure models a raised exception, success yields the
boolean is_valid field), and the DocTR OCR oracle (failure models a
raised exception, success yields result.render()). -/
structure ProcEnv where
  path : String
  fileExists : Bool
  fileSize : Nat
  parseResult : Option PDFDoc
  validateOracle : String → Except String Bool
  ocrOracle : Except String String

/-- DocumentProcessor._validate_file: missing file raises the builtin
FileNotFoundError; oversized file raises InvalidDocumentError. -/
def validateFile (cfg : AppConfig) (env : ProcEnv) : Except ProcError Unit :=
  if !env.fileExists then
    Except.error (ProcError.fileNotFound ("File not found: " ++ env.path))
  else if env.fileSize > cfg.MAX_FILE_SIZE then
    Except.error (ProcError.invalidDocument
      ("File size " ++ toString env.fileSize ++ " exceeds limit "
        ++ toString cfg.MAX_FILE_SIZE ++ " bytes."))
  else
    Except.ok ()

/-- DocumentProcessor._extract_page_text: returns the stripped page
text plus a newline; any exception becomes ContentExtractionError. -/
def extractPageText (p : Page) : Except ProcError String :=
  match p.getTextResult with
  | Except.error _ => Except.error (ProcError.contentExtraction "Text extraction failed")
  | Except.ok t => Except.ok (pyStrip t ++ "\n")

/-- DocumentProcessor._render_page_image: any exception becomes
ContentExtractionError. -/
def renderPageImage (p : Page) : Except ProcError PdfImage :=
  match p.renderResult with
  | Except.error _ => Except.error (ProcError.contentExtraction "Image rendering failed")
  | Except.ok img => Except.ok img

/-- The per-page loop of DocumentProcessor.process: for each page in
order, extract its text (accumulated by concatenation) then render its
image (appended); the first failure aborts the loop. The second
component records the per-page external calls made, in order. -/
def extractPagesAux : Nat → List Page → Except ProcError (String × List PdfImage) × List ExtractEvent
  | _, [] => (Except.ok ("", []), [])
  | i, p :: rest =>
    match extractPageText p with
    | Except.error e => (Except.error e, [ExtractEvent.extractTextEv i])
    | Except.ok t =>
      match renderPageImage p with
      | Except.error e => (Except.error e, [ExtractEvent.extractTextEv i, ExtractEvent.renderImageEv i])
      | Except.ok img =>
        match extractPagesAux (i + 1) rest with
        | (Except.error e, evs) =>
          (Except.error e, ExtractEvent.extractTextEv i :: ExtractEvent.renderImageEv i :: evs)
        | (Except.ok (restText, restImgs), evs) =>
          (Except.ok (t ++ restText, img :: restImgs),
            ExtractEvent.extractTextEv i :: ExtractEvent.renderImageEv i :: evs)

/-- DocumentProcessor._is_valid_content: empty (stripped) text is
invalid without consulting the classifier; otherwise the dspy
ValidContent predictor is called, and since that call sits in no
try/except, its failure propagates as an uncaught exception. -/
def isValidContent (env : ProcEnv) (text : String) : Except ProcError Bool × List ExtractEvent :=
  if pyStrip text = "" then
    (Except.ok false, [])
  else
    match env.validateOracle text with
    | Except.error e => (Except.error (ProcError.uncaughtException e), [ExtractEvent.classifierCall])
    | Except.ok b => (Except.ok b, [ExtractEvent.classifierCall])

/-- DocumentProcessor._ocr_fallback: DocTR over the whole document;
any exception becomes ContentExtractionError. -/
def ocrFallback (env : ProcEnv) : Except ProcError String × List ExtractEvent :=
  match env.ocrOracle with
  | Except.error e =>
    (Except.error (ProcError.contentExtraction ("OCR extraction failed: " ++ e)), [ExtractEvent.ocrCall])
  | Except.ok t => (Except.ok t, [ExtractEvent.ocrCall])

/-- DocumentProcessor.process: validate the file, open it (a
pymupdf.FileDataError is caught and re-raised as InvalidDocumentError),
fail fast if the page count exceeds AppConfig.MAX_FILE_PAGE, run the
per-page loop, gate the concatenated text, and on rejection replace the
text by the OCR fallback while keeping the rendered images. The second
component is the ordered trace of external calls performed. -/
def process (cfg : AppConfig) (env : ProcEnv) :
    Except ProcError (String × List PdfImage) × List ExtractEvent :=
  match validateFile cfg env with
  | Except.error e => (Except.error e, [])
  | Except.ok () =>
    match env.parseResult with
    | none => (Except.error (ProcError.invalidDocument "Invalid PDF structure"), [])
    | some doc =>
      if doc.pages.length > cfg.MAX_FILE_PAGE then
        (Except.error (ProcError.invalidDocument
          ("File page count exceeds limit " ++ toString cfg.MAX_FILE_PAGE ++ " pages.")), [])
      else
        match extractPagesAux 0 doc.pages with
        | (Except.error e, evs) => (Except.error e, evs)
        | (Except.ok (text, images), evs) =>
          match isValidContent env text with
          | (Except.error e, evs2) => (Except.error e, evs ++ evs2)
          | (Except.ok true, evs2) => (Except.ok (text, images), evs ++ evs2)
          | (Except.ok false, evs2) =>
            match ocrFallback env with
            | (Except.error e, evs3) => (Except.error e, evs ++ evs2 ++ evs3)
            | (Except.ok ocrText, evs3) => (Except.ok (ocrText, images), evs ++ evs2 ++ evs3)

/-- The Literal["good", "poor", "unusable"] text-quality field of the
DocTextAnalysis signature. -/
inductive TextQuality where
  | good
  | poor
  | unusable
deriving DecidableEq

/-- Output fields of the DocTextAnalysis signature (the degraded
placeholder of _analyze_text also carries exactly these fields). -/
structure TextResult where
  text_quality : TextQuality
  description : String
  summary : String
  notable_info : List String
deriving DecidableEq

/-- Output fields of the DocImagesAnalysis signature; the
DocAnalysisCombined fusion signature produces the same three fields, so
a combined result is also a value of this shape (in the source both are
dspy.Prediction records with description, summary, notable_info). -/
structure ImagesResult where
  description : String
  summary : String
  notable_info : List String
deriving DecidableEq

/-- Output fields of the AnalysisValidation signature. -/
structure ValidationResult where
  confidence_score : ℚ
  validation_notes : List String
deriving DecidableEq

/-- The confidence sub-record of the final output. -/
structure Confidence where
  score : ℚ
  notes : List String
deriving DecidableEq

/-- The record _format_output builds: exactly the four top-level keys
description, summary, notable_info, confidence. -/
structure FinalResult where
  description : String
  summary : String
  notable_info : List String
  confidence : Confidence
deriving DecidableEq

/-- Observable side effects of one analyzer call, used to state when
the fusion inference contract is or is not invoked. -/
inductive AnalyzeEvent where
  | fusionCall
deriving DecidableEq

/-- The dspy inference backend as the analyzer sees it: one oracle per
ChainOfThought contract; Except.error models any raised exception. -/
structure AnalyzerEnv where
  textOracle : String → Except String TextResult
  imagesOracle : List PdfImage → Except String ImagesResult
  combineOracle : TextResult → ImagesResult → Except String ImagesResult
  validationOracle : String → List PdfImage → ImagesResult → Except String ValidationResult

/-- DocumentAnalyzer._analyze_text: on any failure substitute the
degraded placeholder with text_quality "unusable". -/
def analyzeTextStage (env : AnalyzerEnv) (text : String) : TextResult :=
  match env.textOracle text with
  | Except.ok r => r
  | Except.error _ =>
    ⟨TextQuality.unusable, "unknown", "Text analysis unavailable", []⟩

/-- DocumentAnalyzer._analyze_images: on any failure substitute the
degraded placeholder (whose summary string is the source's literal,
a copy-paste of the text one). -/
def analyzeImagesStage (env : AnalyzerEnv) (images : List PdfImage) : ImagesResult :=
  match env.imagesOracle images with
  | Except.ok r => r
  | Except.error _ => ⟨"unknown", "Text analysis unavailable", []⟩

/-- DocumentAnalyzer._combine_results: if the text result's quality is
"unusable" the image result is passed through verbatim and the fusion
contract is not called; otherwise the fusion contract is called and any
failure substitutes the degraded placeholder. The event list records
whether the fusion inference call happened. -/
def combineResults (env : AnalyzerEnv) (rText : TextResult) (rImages : ImagesResult) :
    ImagesResult × List AnalyzeEvent :=
  if rText.text_quality = TextQuality.unusable then
    (rImages, [])
  else
    match env.combineOracle rText rImages with
    | Except.ok r => (r, [AnalyzeEvent.fusionCall])
    | Except.error _ => (⟨"unknown", "Text analysis unavailable", []⟩, [AnalyzeEvent.fusionCall])

/-- DocumentAnalyzer._validate_results: on any failure substitute
confidence_score 0.0 with empty notes. -/
def validateResultsStage (env : AnalyzerEnv) (text : String) (images : List PdfImage)
    (rCombined : ImagesResult) : ValidationResult :=
  match env.validationOracle text images rCombined with
  | Except.ok r => r
  | Except.error _ => ⟨0, []⟩

/-- DocumentAnalyzer._format_output. -/
def formatOutput (rCombined : ImagesResult) (rValidation : ValidationResult) : FinalResult :=
  ⟨rCombined.description, rCombined.summary, rCombined.notable_info,
    ⟨rValidation.confidence_score, rValidation.validation_notes⟩⟩

/-- DocumentAnalyzer.forward: run the four stages in sequence, emit a
warning log line when the confidence score is below
AppConfig.MIN_CONFIDENCE, and return the formatted output. The second
component is the analyzer's event trace (fusion invocation), the third
the emitted warning lines. -/
def forward (env : AnalyzerEnv) (text : String) (images : List PdfImage) :
    FinalResult × List AnalyzeEvent × List String :=
  let textResults := analyzeTextStage env text
  let imagesResults := analyzeImagesStage env images
  let combined := combineResults env textResults imagesResults
  let validationResults := validateResultsStage env text images combined.1
  let warnings :=
    if validationResults.confidence_score < MIN_CONFIDENCE then
      ["Confidence score lower than threshhold"]
    else
      []
  (formatOutput combined.1 validationResults, combined.2, warnings)

/-- DocumentAnalyzer.forward with the low-confidence warning branch
removed and nothing else changed: the comparison baseline for the claim
that the warning path leaves the returned record untouched. -/
def forwardNoWarningPath (env : AnalyzerEnv) (text : String) (images : List PdfImage) :
    FinalResult × List AnalyzeEvent :=
  let textResults := analyzeTextStage env text
  let imagesResults := analyzeImagesStage env images
  let combined := combineResults env textResults imagesResults
  let validationResults := validateResultsStage env text images combined.1
  (formatOutput combined.1 validationResults, combined.2)

/-! Concrete environments used to exercise the definitions. -/

/-- The default configuration from config.py: 2 MB size ceiling,
10-page ceiling. -/
def cfg0 : AppConfig := ⟨2 * 1024 * 1024, 10⟩

/-- An analyzer environment whose text-analysis oracle fails and whose
other oracles succeed. -/
def envTextFail : AnalyzerEnv :=
  ⟨fun _ => Except.error "llm down",
   fun _ => Except.ok ⟨"img desc", "img summary", ["Key: Value"]⟩,
   fun _ _ => Except.ok ⟨"fused desc", "fused summary", []⟩,
   fun _ _ _ => Except.ok ⟨9 / 10, []⟩⟩

/-- An analyzer environment whose validation oracle reports a score of
1/2, below the 0.6 threshold. -/
def envLowScore : AnalyzerEnv :=
  ⟨fun _ => Except.ok ⟨TextQuality.good, "d", "s", []⟩,
   fun _ => Except.ok ⟨"di", "si", []⟩,
   fun _ _ => Except.ok ⟨"dc", "sc", []⟩,
   fun _ _ _ => Except.ok ⟨1 / 2, ["low"]⟩⟩

/-- C1: for every text input, every image sequence and every
combination of sub-stage success or failure (the quantification over
the oracle environment), forward returns a record with exactly the four
top-level keys description, summary, notable_info and confidence (the
latter holding score and notes), assembled by _format_output from the
(possibly degraded) combined and validation stage values; no exception
escapes, since forward is total. -/
theorem analyze_always_returns_four_key_record (env : AnalyzerEnv) (text : String)
    (images : List PdfImage) :
    (∃ d s n sc notes,
        (forward env text images).1 = FinalResult.mk d s n (Confidence.mk sc notes))
      ∧ (forward env text images).1
          = formatOutput
              (combineResults env (analyzeTextStage env text) (analyzeImagesStage env images)).1
              (validateResultsStage env text images
                (combineResults env (analyzeTextStage env text) (analyzeImagesStage env images)).1) :=
  ⟨⟨_, _, _, _, _, rfl⟩, rfl⟩

/-- C2: whenever the text-analysis result carries quality "unusable"
(the degraded placeholder included), the combined result is the
image-analysis result verbatim with no fusion inference call (empty
fusion event list), and the final record's description, summary and
notable_info equal the image-analysis result's fields. -/
theorem unusable_text_image_passthrough (env : AnalyzerEnv) (text : String)
    (images : List PdfImage)
    (h : (analyzeTextStage env text).text_quality = TextQuality.unusable) :
    combineResults env (analyzeTextStage env text) (analyzeImagesStage env images)
        = (analyzeImagesStage env images, [])
      ∧ (forward env text images).1.description = (analyzeImagesStage env images).description
      ∧ (forward env text images).1.summary = (analyzeImagesStage env images).summary
      ∧ (forward env text images).1.notable_info
          = (analyzeImagesStage env images).notable_info := by
  have hc : combineResults env (analyzeTextStage env text) (analyzeImagesStage env images)
      = (analyzeImagesStage env images, []) := by
    simp [combineResults, h]
  refine ⟨hc, ?_, ?_, ?_⟩ <;> simp [forward, formatOutput, hc]

/-- Witness for C2 at a concrete input: text analysis fails, so the
degraded placeholder (quality "unusable") is substituted, and the final
fields are the image-analysis fields. -/
theorem unusable_text_image_passthrough_witness :
    (analyzeTextStage envTextFail "some text").text_quality = TextQuality.unusable
      ∧ (combineResults envTextFail (analyzeTextStage envTextFail "some text")
            (analyzeImagesStage envTextFail [⟨0⟩])
          = (analyzeImagesStage envTextFail [⟨0⟩], [])
        ∧ (forward envTextFail "some text" [⟨0⟩]).1.description
            = (analyzeImagesStage envTextFail [⟨0⟩]).description
        ∧ (forward envTextFail "some text" [⟨0⟩]).1.summary
            = (analyzeImagesStage envTextFail [⟨0⟩]).summary
        ∧ (forward envTextFail "some text" [⟨0⟩]).1.notable_info
            = (analyzeImagesStage envTextFail [⟨0⟩]).notable_info) :=
  ⟨rfl, unusable_text_image_passthrough envTextFail "some text" [⟨0⟩] rfl⟩

/-- C8: when the validation stage's confidence score is below
AppConfig.MIN_CONFIDENCE, exactly the warning line is emitted, and both
the returned record and the fusion event trace are identical to those
of the variant with the warning branch removed: the low score changes
no field of the result. -/
theorem low_confidence_warning_result_unchanged (env : AnalyzerEnv) (text : String)
    (images : List PdfImage)
    (h : (validateResultsStage env text images
        (combineResults env (analyzeTextStage env text)
          (analyzeImagesStage env images)).1).confidence_score < MIN_CONFIDENCE) :
    (forward env text images).2.2 = ["Confidence score lower than threshhold"]
      ∧ (forward env text images).1 = (forwardNoWarningPath env text images).1
      ∧ (forward env text images).2.1 = (forwardNoWarningPath env text images).2 := by
  refine ⟨?_, rfl, rfl⟩
  simp only [forward]
  rw [if_pos h]

/-- Witness for C8 at a concrete input: the oracle scores 1/2 < 0.6 and
the record equals the no-warning-path record. -/
theorem low_confidence_warning_result_unchanged_witness :
    ((validateResultsStage envLowScore "t" [⟨1⟩]
        (combineResults envLowScore (analyzeTextStage envLowScore "t")
          (analyzeImagesStage envLowScore [⟨1⟩])).1).confidence_score < MIN_CONFIDENCE)
      ∧ ((forward envLowScore "t" [⟨1⟩]).2.2 = ["Confidence score lower than threshhold"]
        ∧ (forward envLowScore "t" [⟨1⟩]).1 = (forwardNoWarningPath envLowScore "t" [⟨1⟩]).1
        ∧ (forward envLowScore "t" [⟨1⟩]).2.1
            = (forwardNoWarningPath envLowScore "t" [⟨1⟩]).2) := by
  have h : (validateResultsStage envLowScore "t" [⟨1⟩]
      (combineResults envLowScore (analyzeTextStage envLowScore "t")
        (analyzeImagesStage envLowScore [⟨1⟩])).1).confidence_score < MIN_CONFIDENCE := by
    show (1 / 2 : ℚ) < 6 / 10
    norm_num
  exact ⟨h, low_confidence_warning_result_unchanged envLowScore "t" [⟨1⟩] h⟩

/-! Helper lemmas about the processor's error surface and call trace. -/

/-- Any error of _extract_page_text is the ContentExtractionError it
raises. -/
theorem extractPageText_error_form (p : Page) (e : ProcError)
    (h : extractPageText p = Except.error e) :
    e = ProcError.contentExtraction "Text extraction failed" := by
  unfold extractPageText at h
  cases hg : p.getTextResult with
  | error s => rw [hg] at h; exact (Except.error.inj h).symm
  | ok t => rw [hg] at h; exact Except.noConfusion h

/-- Any error of _render_page_image is the ContentExtractionError it
raises. -/
theorem renderPageImage_error_form (p : Page) (e : ProcError)
    (h : renderPageImage p = Except.error e) :
    e = ProcError.contentExtraction "Image rendering failed" := by
  unfold renderPageImage at h
  cases hg : p.renderResult with
  | error s => rw [hg] at h; exact (Except.error.inj h).symm
  | ok img => rw [hg] at h; exact Except.noConfusion h

/-- Any error escaping the per-page loop is a ContentExtractionError. -/
theorem extractPagesAux_error_form (i : Nat) (ps : List Page) (e : ProcError)
    (evs : List ExtractEvent) (h : extractPagesAux i ps = (Except.error e, evs)) :
    ∃ m, e = ProcError.contentExtraction m := by
  induction ps generalizing i evs with
  | nil => exact absurd (congrArg Prod.fst h) (by simp [extractPagesAux])
  | cons p rest ih =>
    rw [extractPagesAux] at h
    cases hp : extractPageText p with
    | error e1 =>
      rw [hp] at h
      have : e = e1 := by
        have := congrArg Prod.fst h
        simpa using this.symm
      exact ⟨_, this.trans (extractPageText_error_form p e1 hp)⟩
    | ok t =>
      rw [hp] at h
      cases hr : renderPageImage p with
      | error e1 =>
        rw [hr] at h
        have : e = e1 := by
          have := congrArg Prod.fst h
          simpa using this.symm
        exact ⟨_, this.trans (renderPageImage_error_form p e1 hr)⟩
      | ok img =>
        rw [hr] at h
        rcases hrest : extractPagesAux (i + 1) rest with ⟨r, evs1⟩
        rw [hrest] at h
        cases r with
        | error e1 =>
          have he1 : e = e1 := by
            have := congrArg Prod.fst h
            simpa using this.symm
          subst he1
          exact ih (i + 1) evs1 hrest
        | ok pr =>
          exact absurd (congrArg Prod.fst h) (by simp)

/-- Any error of _ocr_fallback is a ContentExtractionError. -/
theorem ocrFallback_error_form (env : ProcEnv) (e : ProcError)
    (evs : List ExtractEvent) (h : ocrFallback env = (Except.error e, evs)) :
    ∃ m, e = ProcError.contentExtraction m := by
  unfold ocrFallback at h
  cases hg : env.ocrOracle with
  | error s =>
    rw [hg] at h
    have := congrArg Prod.fst h
    simp only at this
    exact ⟨_, (Except.error.inj this).symm⟩
  | ok t =>
    rw [hg] at h
    have := congrArg Prod.fst h
    simp only at this
    exact Except.noConfusion this

/-- Any error of _is_valid_content is the uncaught classifier
exception, and it occurs only when the stripped text is non-empty and
the classifier oracle fails on exactly that text. -/
theorem isValidContent_error_form (env : ProcEnv) (text : String) (e : ProcError)
    (h : (isValidContent env text).1 = Except.error e) :
    pyStrip text ≠ "" ∧ ∃ m, env.validateOracle text = Except.error m
      ∧ e = ProcError.uncaughtException m := by
  unfold isValidContent at h
  by_cases hs : pyStrip text = ""
  · rw [if_pos hs] at h
    exact Except.noConfusion h
  · rw [if_neg hs] at h
    refine ⟨hs, ?_⟩
    cases hg : env.validateOracle text with
    | error m =>
      rw [hg] at h
      simp only at h
      exact ⟨m, rfl, (Except.error.inj h).symm⟩
    | ok b =>
      rw [hg] at h
      simp only at h
      exact Except.noConfusion h

/-- The per-page loop never invokes the readability classifier. -/
theorem classifierCall_not_in_extractPagesAux (i : Nat) (ps : List Page) :
    ExtractEvent.classifierCall ∉ (extractPagesAux i ps).2 := by
  induction ps generalizing i with
  | nil => simp [extractPagesAux]
  | cons p rest ih =>
    rw [extractPagesAux]
    cases hp : extractPageText p with
    | error e => simp
    | ok t =>
      cases hr : renderPageImage p with
      | error e => simp
      | ok img =>
        have hrec := ih (i + 1)
        rcases hrest : extractPagesAux (i + 1) rest with ⟨r, evs⟩
        rw [hrest] at hrec
        cases r with
        | error e => simpa using hrec
        | ok pr => rcases pr with ⟨rt, ri⟩; simpa using hrec

/-- Characterization of process once validation, parsing and the page
check have gone through and the per-page loop has succeeded: what
remains is the quality gate and the possible OCR fallback. -/
theorem process_after_extraction (cfg : AppConfig) (env : ProcEnv) (doc : PDFDoc)
    (hval : validateFile cfg env = Except.ok ())
    (hparse : env.parseResult = some doc)
    (hpages : ¬ doc.pages.length > cfg.MAX_FILE_PAGE)
    (text : String) (images : List PdfImage) (evs : List ExtractEvent)
    (hext : extractPagesAux 0 doc.pages = (Except.ok (text, images), evs)) :
    process cfg env =
      (match isValidContent env text with
       | (Except.error e, evs2) => (Except.error e, evs ++ evs2)
       | (Except.ok true, evs2) => (Except.ok (text, images), evs ++ evs2)
       | (Except.ok false, evs2) =>
         match ocrFallback env with
         | (Except.error e, evs3) => (Except.error e, evs ++ evs2 ++ evs3)
         | (Except.ok ocrText, evs3) => (Except.ok (ocrText, images), evs ++ evs2 ++ evs3)) := by
  unfold process
  rw [hval, hparse]
  dsimp only
  rw [if_neg hpages, hext]

/-- Past the page-count check, every error process can produce is a
ContentExtractionError or the uncaught readability-classifier
exception; in particular it is never an InvalidDocumentError. -/
theorem process_past_pagecheck_error_form (cfg : AppConfig) (env : ProcEnv) (doc : PDFDoc)
    (hval : validateFile cfg env = Except.ok ())
    (hparse : env.parseResult = some doc)
    (hpages : ¬ doc.pages.length > cfg.MAX_FILE_PAGE)
    (e : ProcError) (he : (process cfg env).1 = Except.error e) :
    (∃ m, e = ProcError.contentExtraction m)
      ∨ ∃ t m, pyStrip t ≠ "" ∧ env.validateOracle t = Except.error m
          ∧ e = ProcError.uncaughtException m := by
  rcases hext : extractPagesAux 0 doc.pages with ⟨r, evs⟩
  cases r with
  | error e1 =>
    have hfst : (process cfg env).1 = Except.error e1 := by
      unfold process
      rw [hval, hparse]
      dsimp only
      rw [if_neg hpages, hext]
    rw [hfst] at he
    have : e1 = e := Except.error.inj he
    exact Or.inl (this ▸ extractPagesAux_error_form 0 doc.pages e1 evs hext)
  | ok pr =>
    rcases pr with ⟨text, images⟩
    rw [process_after_extraction cfg env doc hval hparse hpages text images evs hext] at he
    rcases hvc : isValidContent env text with ⟨vr, evs2⟩
    rw [hvc] at he
    cases vr with
    | error e1 =>
      have : e1 = e := Except.error.inj he
      have hv1 : (isValidContent env text).1 = Except.error e1 := by rw [hvc]
      obtain ⟨hne, m, hm, hem⟩ := isValidContent_error_form env text e1 hv1
      exact Or.inr ⟨text, m, hne, hm, this ▸ hem⟩
    | ok b =>
      cases b with
      | true => exact Except.noConfusion he
      | false =>
        rcases ho : ocrFallback env with ⟨orr, evs3⟩
        rw [ho] at he
        cases orr with
        | error e1 =>
          have : e1 = e := Except.error.inj he
          exact Or.inl (this ▸ ocrFallback_error_form env e1 evs3 ho)
        | ok t => exact Except.noConfusion he

/-! Concrete processor environments used in counterexamples and
witnesses. -/

/-- A source path that resolves to no existing file. -/
def envMissingFile : ProcEnv :=
  ⟨"missing.pdf", false, 0, none, fun _ => Except.ok true, Except.ok "ocr"⟩

/-- A one-page document whose page text is non-empty. -/
def pageHello : Page := ⟨Except.ok "  hello  ", Except.ok ⟨0⟩⟩

/-- A valid one-page document for which the readability-classifier
inference call raises. -/
def envClassifierBoom : ProcEnv :=
  ⟨"doc.pdf", true, 100, some ⟨[pageHello]⟩, fun _ => Except.error "boom", Except.ok "ocr"⟩

/-- A small configuration for witnesses: 10-byte size ceiling, 1-page
ceiling. -/
def cfgTiny : AppConfig := ⟨10, 1⟩

/-- An existing file whose size exceeds cfgTiny's 10-byte ceiling;
all oracles total. -/
def envOversized : ProcEnv :=
  ⟨"big.pdf", true, 11, some ⟨[pageHello]⟩, fun _ => Except.ok true, Except.ok "ocr"⟩

/-- C3 counterexample: on a missing file, process fails with the
builtin FileNotFoundError raised by _validate_file, not with
InvalidDocumentError as the claim states. -/
theorem missing_file_not_invalid_document :
    (process cfg0 envMissingFile).1
        = Except.error (ProcError.fileNotFound "File not found: missing.pdf")
      ∧ ∀ msg, (process cfg0 envMissingFile).1
          ≠ Except.error (ProcError.invalidDocument msg) := by
  refine ⟨rfl, ?_⟩
  intro msg h
  rw [show (process cfg0 envMissingFile).1
      = Except.error (ProcError.fileNotFound "File not found: missing.pdf") from rfl] at h
  exact ProcError.noConfusion (Except.error.inj h)

/-- C3 amended: for every source path that does not resolve to an
existing file, process fails with the Python builtin FileNotFoundError
(before any other work: empty call trace), while oversized, malformed
and over-page-count inputs are the ones that fail with
InvalidDocument. -/
theorem missing_file_raises_builtin_not_found (cfg : AppConfig) (env : ProcEnv)
    (h : env.fileExists = false) :
    process cfg env
      = (Except.error (ProcError.fileNotFound ("File not found: " ++ env.path)), []) := by
  simp [process, validateFile, h]

/-- Witness for amended C3 at a concrete input. -/
theorem missing_file_raises_builtin_not_found_witness :
    envMissingFile.fileExists = false
      ∧ process cfg0 envMissingFile
          = (Except.error (ProcError.fileNotFound ("File not found: " ++ envMissingFile.path)), []) :=
  ⟨rfl, missing_file_raises_builtin_not_found cfg0 envMissingFile rfl⟩

/-- C4 counterexample: when the readability-classifier inference call
fails on a valid document with non-empty native text, process raises
the classifier's exception unwrapped, which is neither
InvalidDocumentError nor ContentExtractionError (_is_valid_content has
no try/except around the dspy call). -/
theorem classifier_failure_escapes_uncategorized :
    (process cfg0 envClassifierBoom).1 = Except.error (ProcError.uncaughtException "boom")
      ∧ (∀ m, (process cfg0 envClassifierBoom).1
          ≠ Except.error (ProcError.invalidDocument m))
      ∧ (∀ m, (process cfg0 envClassifierBoom).1
          ≠ Except.error (ProcError.contentExtraction m)) := by
  refine ⟨rfl, ?_, ?_⟩ <;>
    · intro m h
      rw [show (process cfg0 envClassifierBoom).1
          = Except.error (ProcError.uncaughtException "boom") from rfl] at h
      exact ProcError.noConfusion (Except.error.inj h)

/-- C4 amended: provided the source file exists and the
readability-classifier call does not raise, every failure process
raises is one of the two categorized extraction-phase failures,
InvalidDocument or ContentExtractionError; without those provisos a
missing file raises FileNotFoundError and a classifier exception
propagates uncategorized. -/
theorem process_error_two_categories_amended (cfg : AppConfig) (env : ProcEnv)
    (hex : env.fileExists = true)
    (hcl : ∀ t, ∃ b, env.validateOracle t = Except.ok b)
    (e : ProcError) (he : (process cfg env).1 = Except.error e) :
    (∃ m, e = ProcError.invalidDocument m)
      ∨ ∃ m, e = ProcError.contentExtraction m := by
  by_cases hsz : env.fileSize > cfg.MAX_FILE_SIZE
  · have hval : validateFile cfg env = Except.error (ProcError.invalidDocument
        ("File size " ++ toString env.fileSize ++ " exceeds limit "
          ++ toString cfg.MAX_FILE_SIZE ++ " bytes.")) := by
      unfold validateFile
      rw [hex, if_pos hsz]
      rfl
    have hfst : (process cfg env).1 = Except.error (ProcError.invalidDocument
        ("File size " ++ toString env.fileSize ++ " exceeds limit "
          ++ toString cfg.MAX_FILE_SIZE ++ " bytes.")) := by
      unfold process
      rw [hval]
    rw [hfst] at he
    exact Or.inl ⟨_, (Except.error.inj he).symm⟩
  · have hval : validateFile cfg env = Except.ok () := by
      unfold validateFile
      rw [hex, if_neg hsz]
      rfl
    cases hparse : env.parseResult with
    | none =>
      have hfst : (process cfg env).1
          = Except.error (ProcError.invalidDocument "Invalid PDF structure") := by
        unfold process
        rw [hval, hparse]
      rw [hfst] at he
      exact Or.inl ⟨_, (Except.error.inj he).symm⟩
    | some doc =>
      by_cases hpages : doc.pages.length > cfg.MAX_FILE_PAGE
      · have hfst : (process cfg env).1 = Except.error (ProcError.invalidDocument
            ("File page count exceeds limit " ++ toString cfg.MAX_FILE_PAGE ++ " pages.")) := by
          unfold process
          rw [hval, hparse]
          dsimp only
          rw [if_pos hpages]
        rw [hfst] at he
        exact Or.inl ⟨_, (Except.error.inj he).symm⟩
      · rcases process_past_pagecheck_error_form cfg env doc hval hparse hpages e he with
          h1 | ⟨t, m, _, hm, _⟩
        · exact Or.inr h1
        · obtain ⟨b, hb⟩ := hcl t
          rw [hb] at hm
          exact Except.noConfusion hm

/-- Witness for amended C4 at a concrete input: an oversized file with
total oracles fails, and the failure is categorized. -/
theorem process_error_two_categories_amended_witness :
    envOversized.fileExists = true
      ∧ (∀ t, ∃ b, envOversized.validateOracle t = Except.ok b)
      ∧ (process cfgTiny envOversized).1
          = Except.error (ProcError.invalidDocument "File size 11 exceeds limit 10 bytes.")
      ∧ ((∃ m, ProcError.invalidDocument "File size 11 exceeds limit 10 bytes."
            = ProcError.invalidDocument m)
        ∨ ∃ m, ProcError.invalidDocument "File size 11 exceeds limit 10 bytes."
            = ProcError.contentExtraction m) :=
  ⟨rfl, fun _ => ⟨true, rfl⟩, rfl,
    process_error_two_categories_amended cfgTiny envOversized rfl (fun _ => ⟨true, rfl⟩) _ rfl⟩

/-- _ocr_fallback always performs exactly one OCR call. -/
theorem ocrFallback_trace (env : ProcEnv) : (ocrFallback env).2 = [ExtractEvent.ocrCall] := by
  unfold ocrFallback
  cases env.ocrOracle <;> rfl

/-- A one-page readable document that the classifier nevertheless
rejects; the OCR oracle yields a text shorter than the native one. -/
def envGateReject : ProcEnv :=
  ⟨"r.pdf", true, 5, some ⟨[⟨Except.ok "native words here", Except.ok ⟨7⟩⟩]⟩,
   fun _ => Except.ok false, Except.ok "short"⟩

/-- A one-page document with empty native text; its classifier oracle
raises if ever consulted. -/
def envEmptyPage : ProcEnv :=
  ⟨"e.pdf", true, 5, some ⟨[⟨Except.ok "", Except.ok ⟨3⟩⟩]⟩,
   fun _ => Except.error "never", Except.ok "ocr text"⟩

/-- A two-page document, used against cfgTiny's 1-page ceiling. -/
def envTwoPages : ProcEnv :=
  ⟨"two.pdf", true, 5, some ⟨[pageHello, pageHello]⟩,
   fun _ => Except.ok true, Except.ok "ocr"⟩

/-- C5: whenever the quality gate rejects the native text, process
returns the OCR-derived text with the native text fully discarded,
paired with exactly the already-rendered page images, and the full
trace is the per-page calls, the gate's calls, then one OCR call. -/
theorem gate_reject_ocr_replaces_text_keeps_images (cfg : AppConfig) (env : ProcEnv)
    (doc : PDFDoc)
    (hval : validateFile cfg env = Except.ok ())
    (hparse : env.parseResult = some doc)
    (hpages : ¬ doc.pages.length > cfg.MAX_FILE_PAGE)
    (text : String) (images : List PdfImage) (evs : List ExtractEvent)
    (hext : extractPagesAux 0 doc.pages = (Except.ok (text, images), evs))
    (evs2 : List ExtractEvent)
    (hgate : isValidContent env text = (Except.ok false, evs2))
    (ocrText : String) (hocr : env.ocrOracle = Except.ok ocrText) :
    process cfg env
      = (Except.ok (ocrText, images), evs ++ evs2 ++ [ExtractEvent.ocrCall]) := by
  have hof : ocrFallback env = (Except.ok ocrText, [ExtractEvent.ocrCall]) := by
    unfold ocrFallback
    rw [hocr]
  rw [process_after_extraction cfg env doc hval hparse hpages text images evs hext,
    hgate]
  dsimp only
  rw [hof]

/-- Witness for C5 at a concrete input: the classifier answers false on
the native text, and process returns the (shorter) OCR text with the
single rendered image. -/
theorem gate_reject_ocr_replaces_text_keeps_images_witness :
    validateFile cfg0 envGateReject = Except.ok ()
      ∧ envGateReject.parseResult
          = some ⟨[⟨Except.ok "native words here", Except.ok ⟨7⟩⟩]⟩
      ∧ ¬ (PDFDoc.mk [⟨Except.ok "native words here", Except.ok ⟨7⟩⟩]).pages.length
          > cfg0.MAX_FILE_PAGE
      ∧ extractPagesAux 0 (PDFDoc.mk [⟨Except.ok "native words here", Except.ok ⟨7⟩⟩]).pages
          = (Except.ok ("native words here\n", [⟨7⟩]),
             [ExtractEvent.extractTextEv 0, ExtractEvent.renderImageEv 0])
      ∧ isValidContent envGateReject "native words here\n"
          = (Except.ok false, [ExtractEvent.classifierCall])
      ∧ envGateReject.ocrOracle = Except.ok "short"
      ∧ process cfg0 envGateReject
          = (Except.ok ("short", [⟨7⟩]),
             [ExtractEvent.extractTextEv 0, ExtractEvent.renderImageEv 0]
               ++ [ExtractEvent.classifierCall] ++ [ExtractEvent.ocrCall]) :=
  ⟨rfl, rfl, by decide, rfl, rfl, rfl,
    gate_reject_ocr_replaces_text_keeps_images cfg0 envGateReject
      ⟨[⟨Except.ok "native words here", Except.ok ⟨7⟩⟩]⟩ rfl rfl (by decide)
      "native words here\n" [⟨7⟩] [ExtractEvent.extractTextEv 0, ExtractEvent.renderImageEv 0]
      rfl [ExtractEvent.classifierCall] rfl "short" rfl⟩

/-- C6: when the concatenated extracted text strips to empty, the
quality gate rejects it without any classifier call, process's outcome
is exactly the OCR fallback's outcome paired with the rendered images,
and no classifier call appears anywhere in the whole trace. -/
theorem empty_text_ocr_no_classifier (cfg : AppConfig) (env : ProcEnv) (doc : PDFDoc)
    (hval : validateFile cfg env = Except.ok ())
    (hparse : env.parseResult = some doc)
    (hpages : ¬ doc.pages.length > cfg.MAX_FILE_PAGE)
    (text : String) (images : List PdfImage) (evs : List ExtractEvent)
    (hext : extractPagesAux 0 doc.pages = (Except.ok (text, images), evs))
    (hempty : pyStrip text = "") :
    isValidContent env text = (Except.ok false, [])
      ∧ process cfg env
          = (Except.map (fun t => (t, images)) (ocrFallback env).1,
             evs ++ (ocrFallback env).2)
      ∧ ExtractEvent.classifierCall ∉ (process cfg env).2 := by
  have hvc : isValidContent env text = (Except.ok false, []) := by
    unfold isValidContent
    rw [if_pos hempty]
  have hpr := process_after_extraction cfg env doc hval hparse hpages text images evs hext
  rw [hvc] at hpr
  have hproc : process cfg env
      = (Except.map (fun t => (t, images)) (ocrFallback env).1,
         evs ++ (ocrFallback env).2) := by
    rw [hpr]
    rcases ho : ocrFallback env with ⟨orr, evs3⟩
    cases orr <;> simp [Except.map]
  refine ⟨hvc, hproc, ?_⟩
  rw [hproc, ocrFallback_trace]
  have hnoclass : ExtractEvent.classifierCall ∉ evs := by
    have := classifierCall_not_in_extractPagesAux 0 doc.pages
    rw [hext] at this
    simpa using this
  simp only [List.mem_append, List.mem_singleton]
  rintro (hmem | heq)
  · exact hnoclass hmem
  · exact ExtractEvent.noConfusion heq

/-- Witness for C6 at a concrete input: a one-page document whose only
page text is empty; its classifier oracle would raise if consulted, yet
process succeeds through the OCR path. -/
theorem empty_text_ocr_no_classifier_witness :
    validateFile cfg0 envEmptyPage = Except.ok ()
      ∧ envEmptyPage.parseResult = some ⟨[⟨Except.ok "", Except.ok ⟨3⟩⟩]⟩
      ∧ ¬ (PDFDoc.mk [⟨Except.ok "", Except.ok ⟨3⟩⟩]).pages.length > cfg0.MAX_FILE_PAGE
      ∧ extractPagesAux 0 (PDFDoc.mk [⟨Except.ok "", Except.ok ⟨3⟩⟩]).pages
          = (Except.ok ("\n", [⟨3⟩]),
             [ExtractEvent.extractTextEv 0, ExtractEvent.renderImageEv 0])
      ∧ pyStrip "\n" = ""
      ∧ (isValidContent envEmptyPage "\n" = (Except.ok false, [])
        ∧ process cfg0 envEmptyPage
            = (Except.map (fun t => (t, [(⟨3⟩ : PdfImage)])) (ocrFallback envEmptyPage).1,
               [ExtractEvent.extractTextEv 0, ExtractEvent.renderImageEv 0]
                 ++ (ocrFallback envEmptyPage).2)
        ∧ ExtractEvent.classifierCall ∉ (process cfg0 envEmptyPage).2) :=
  ⟨rfl, rfl, by decide, rfl, rfl,
    empty_text_ocr_no_classifier cfg0 envEmptyPage ⟨[⟨Except.ok "", Except.ok ⟨3⟩⟩]⟩
      rfl rfl (by decide) "\n" [⟨3⟩]
      [ExtractEvent.extractTextEv 0, ExtractEvent.renderImageEv 0] rfl rfl⟩

/-- C7: with the file validated and parsed, a page count strictly above
the ceiling makes process fail with the page-limit InvalidDocument and
an empty call trace (no per-page work), while at a page count exactly
equal to the ceiling process never fails with InvalidDocument at
all. -/
theorem page_limit_fail_fast_boundary (cfg : AppConfig) (env : ProcEnv) (doc : PDFDoc)
    (hval : validateFile cfg env = Except.ok ())
    (hparse : env.parseResult = some doc) :
    (doc.pages.length > cfg.MAX_FILE_PAGE →
        process cfg env
          = (Except.error (ProcError.invalidDocument
              ("File page count exceeds limit " ++ toString cfg.MAX_FILE_PAGE ++ " pages.")),
             []))
      ∧ (doc.pages.length = cfg.MAX_FILE_PAGE →
          ∀ m, (process cfg env).1 ≠ Except.error (ProcError.invalidDocument m)) := by
  constructor
  · intro hover
    unfold process
    rw [hval, hparse]
    dsimp only
    rw [if_pos hover]
  · intro hlen m hcontra
    have hpages : ¬ doc.pages.length > cfg.MAX_FILE_PAGE := by omega
    rcases process_past_pagecheck_error_form cfg env doc hval hparse hpages _ hcontra with
      ⟨m1, h1⟩ | ⟨t, m1, _, _, h1⟩ <;> exact ProcError.noConfusion h1

/-- Witness for C7 at a concrete input: two pages against a 1-page
ceiling fail fast with an empty trace. -/
theorem page_limit_fail_fast_boundary_witness :
    validateFile cfgTiny envTwoPages = Except.ok ()
      ∧ envTwoPages.parseResult = some ⟨[pageHello, pageHello]⟩
      ∧ (PDFDoc.mk [pageHello, pageHello]).pages.length > cfgTiny.MAX_FILE_PAGE
      ∧ process cfgTiny envTwoPages
          = (Except.error (ProcError.invalidDocument
              ("File page count exceeds limit " ++ toString cfgTiny.MAX_FILE_PAGE ++ " pages.")),
             []) :=
  ⟨rfl, rfl, by decide,
    (page_limit_fail_fast_boundary cfgTiny envTwoPages ⟨[pageHello, pageHello]⟩ rfl rfl).1
      (by decide)⟩

/-- A valid one-page document with extractable text that the
classifier accepts. -/
def envGoodSingle : ProcEnv :=
  ⟨"g.pdf", true, 5, some ⟨[pageHello]⟩, fun _ => Except.ok true, Except.ok "ocr"⟩

/-- C9: for every valid single-page document with extractable native
text that the quality gate accepts, process returns the stripped page
text followed by exactly one newline and exactly the one rendered
image. -/
theorem single_page_native_text (cfg : AppConfig) (env : ProcEnv) (p : Page)
    (hval : validateFile cfg env = Except.ok ())
    (hparse : env.parseResult = some ⟨[p]⟩)
    (hpage : 1 ≤ cfg.MAX_FILE_PAGE)
    (rawText : String) (hget : p.getTextResult = Except.ok rawText)
    (img : PdfImage) (hrender : p.renderResult = Except.ok img)
    (evs2 : List ExtractEvent)
    (hgate : isValidContent env (pyStrip rawText ++ "\n") = (Except.ok true, evs2)) :
    (process cfg env).1 = Except.ok (pyStrip rawText ++ "\n", [img])
      ∧ [img].length = 1 := by
  have hext : extractPagesAux 0 [p]
      = (Except.ok (pyStrip rawText ++ "\n", [img]),
         [ExtractEvent.extractTextEv 0, ExtractEvent.renderImageEv 0]) := by
    simp [extractPagesAux, extractPageText, renderPageImage, hget, hrender]
  have hpages : ¬ (PDFDoc.mk [p]).pages.length > cfg.MAX_FILE_PAGE := by
    simp only [PDFDoc.mk, List.length_singleton]
    omega
  refine ⟨?_, rfl⟩
  rw [process_after_extraction cfg env ⟨[p]⟩ hval hparse hpages _ _ _ hext, hgate]

/-- Witness for C9 at a concrete input: the page text "  hello  "
comes back as "hello\n" with its one image. -/
theorem single_page_native_text_witness :
    validateFile cfg0 envGoodSingle = Except.ok ()
      ∧ envGoodSingle.parseResult = some ⟨[pageHello]⟩
      ∧ 1 ≤ cfg0.MAX_FILE_PAGE
      ∧ pageHello.getTextResult = Except.ok "  hello  "
      ∧ pageHello.renderResult = Except.ok ⟨0⟩
      ∧ isValidContent envGoodSingle (pyStrip "  hello  " ++ "\n")
          = (Except.ok true, [ExtractEvent.classifierCall])
      ∧ ((process cfg0 envGoodSingle).1 = Except.ok (pyStrip "  hello  " ++ "\n", [⟨0⟩])
        ∧ [(⟨0⟩ : PdfImage)].length = 1) :=
  ⟨rfl, rfl, by decide, rfl, rfl, rfl,
    single_page_native_text cfg0 envGoodSingle pageHello rfl rfl (by decide)
      "  hello  " rfl ⟨0⟩ rfl [ExtractEvent.classifierCall] rfl⟩

/-- The native-path text as the claim words it: the concatenation over
pages, in page order, of the stripped page text followed by one
newline. -/
def pageTextsJoin : List String → String
  | [] => ""
  | t :: rest => (pyStrip t ++ "\n") ++ pageTextsJoin rest

/-- A page on which both pymupdf calls succeed, with the given text
and image. -/
def okPage (q : String × PdfImage) : Page := ⟨Except.ok q.1, Except.ok q.2⟩

/-- On a document all of whose pages extract and render successfully,
the per-page loop returns exactly pageTextsJoin of the page texts and
exactly the page images, in page order. -/
theorem extractPagesAux_all_ok (i : Nat) (ts : List String) (imgs : List PdfImage)
    (hlen : ts.length = imgs.length) :
    ∃ evs, extractPagesAux i ((ts.zip imgs).map okPage)
      = (Except.ok (pageTextsJoin ts, imgs), evs) := by
  induction ts generalizing i imgs with
  | nil =>
    cases imgs with
    | nil => exact ⟨[], rfl⟩
    | cons _ _ => simp at hlen
  | cons t rest ih =>
    cases imgs with
    | nil => simp at hlen
    | cons img rimgs =>
      obtain ⟨evs, hevs⟩ := ih (i + 1) rimgs (by simpa using hlen)
      refine ⟨ExtractEvent.extractTextEv i :: ExtractEvent.renderImageEv i :: evs, ?_⟩
      simp only [List.zip_cons_cons, List.map_cons]
      rw [extractPagesAux]
      simp [extractPageText, renderPageImage, okPage, hevs, pageTextsJoin]

/-- The join of one or more per-page texts is never the empty string:
every page contributes its trailing newline. -/
theorem pageTextsJoin_ne_empty (t : String) (rest : List String) :
    pageTextsJoin (t :: rest) ≠ "" := by
  intro h
  have hd := congrArg String.data h
  rw [pageTextsJoin] at hd
  simp [String.data_append] at hd

/-- C10: on the native path (all pages extracted and rendered
successfully, gate accepting), process returns exactly the
concatenation over pages of (stripped page text + one newline)
together with the images in page order, and for at least one page that
concatenation is never the empty string. -/
theorem native_path_text_join (cfg : AppConfig) (env : ProcEnv)
    (ts : List String) (imgs : List PdfImage) (hlen : ts.length = imgs.length)
    (hval : validateFile cfg env = Except.ok ())
    (hparse : env.parseResult = some ⟨(ts.zip imgs).map okPage⟩)
    (hpages : ¬ ((ts.zip imgs).map okPage).length > cfg.MAX_FILE_PAGE)
    (evs2 : List ExtractEvent)
    (hgate : isValidContent env (pageTextsJoin ts) = (Except.ok true, evs2)) :
    (process cfg env).1 = Except.ok (pageTextsJoin ts, imgs)
      ∧ (ts ≠ [] → pageTextsJoin ts ≠ "") := by
  obtain ⟨evs, hevs⟩ := extractPagesAux_all_ok 0 ts imgs hlen
  constructor
  · rw [process_after_extraction cfg env ⟨(ts.zip imgs).map okPage⟩ hval hparse hpages
      _ _ _ hevs, hgate]
  · intro hne
    cases ts with
    | nil => exact absurd rfl hne
    | cons t rest => exact pageTextsJoin_ne_empty t rest

/-- A two-page document, one page with text "  a  " and one with empty
text, both rendering successfully. -/
def envTwoNative : ProcEnv :=
  ⟨"n.pdf", true, 5, some ⟨(["  a  ", ""].zip [⟨1⟩, ⟨2⟩]).map okPage⟩,
   fun _ => Except.ok true, Except.ok "ocr"⟩

/-- Witness for C10 at a concrete input: the empty second page still
contributes its newline, so the text is "a\n\n" and both images are
returned in order. -/
theorem native_path_text_join_witness :
    (["  a  ", ""] : List String).length = ([⟨1⟩, ⟨2⟩] : List PdfImage).length
      ∧ validateFile cfg0 envTwoNative = Except.ok ()
      ∧ envTwoNative.parseResult = some ⟨((["  a  ", ""].zip [⟨1⟩, ⟨2⟩]).map okPage)⟩
      ∧ ¬ (((["  a  ", ""] : List String).zip ([⟨1⟩, ⟨2⟩] : List PdfImage)).map okPage).length
          > cfg0.MAX_FILE_PAGE
      ∧ isValidContent envTwoNative (pageTextsJoin ["  a  ", ""])
          = (Except.ok true, [ExtractEvent.classifierCall])
      ∧ ((process cfg0 envTwoNative).1 = Except.ok (pageTextsJoin ["  a  ", ""], [⟨1⟩, ⟨2⟩])
        ∧ ((["  a  ", ""] : List String) ≠ [] → pageTextsJoin ["  a  ", ""] ≠ "")) :=
  ⟨rfl, rfl, rfl, by decide, rfl,
    native_path_text_join cfg0 envTwoNative ["  a  ", ""] [⟨1⟩, ⟨2⟩] rfl rfl rfl
      (by decide) [ExtractEvent.classifierCall] rfl⟩

end PDFAnalyzer
